import Mathlib

/-
  Verification of the heartbeat monitoring script (src/monitor.py, src/config.py).

  The script issues one HTTP GET against a health endpoint, classifies the result
  into a status dict, and in a continuous loop decides whether to POST a formatted
  alert message to a chat webhook.  The embedding below mirrors monitor.py:
  Python dicts are association lists, HTTP outcomes are an inductive datatype,
  exceptions are Except values, and the while-loop is a fold over a finite trace
  of per-iteration inputs.
-/

namespace Heartbeat

/-- The possible outcomes of the outbound HTTP GET in check_api_health
(monitor.py lines 33-61).  A received response carries its status code, the
value of the X-Process-Time header when present, and the result of parsing
the body as JSON (an error description when the body is malformed, in which
case the json() call raises and is caught by the generic except branch). -/
inductive HttpOutcome where
  | response (status : Nat) (xProcessTime : Option String) (body : Except String String)
  | connectorError
  | timeout
  | otherError (desc : String)
deriving Repr

/-- The fixed connection-refused error message of monitor.py line 50. -/
def connectionRefusedMessage : String := "Connection refused - 서버가 실행되지 않음"

/-- Embedding of APIMonitor.check_api_health (monitor.py lines 30-61).  The
returned Python dict is modelled as an association list from keys to string
values; the function is total over all HTTP outcomes, mirroring that every
exception branch is caught and converted into a result dict. -/
def check_api_health : HttpOutcome → List (String × String)
  | .response status xProcessTime body =>
      if status == 200 then
        match body with
        | .ok data =>
            [("status", "healthy"),
             ("response_time", xProcessTime.getD "unknown"),
             ("data", data)]
        | .error e =>
            [("status", "unhealthy"), ("error", e)]
      else
        [("status", "unhealthy"), ("error", "HTTP " ++ toString status)]
  | .connectorError =>
      [("status", "down"), ("error", connectionRefusedMessage)]
  | .timeout =>
      [("status", "unhealthy"), ("error", "Request timeout (10s)")]
  | .otherError e =>
      [("status", "unhealthy"), ("error", e)]

/-- Python dict.get with a default value: d.get(k, dflt). -/
def dictGet (d : List (String × String)) (k dflt : String) : String :=
  (List.lookup k d).getD dflt

/-- The logged outcome of one webhook POST inside send_discord_notification. -/
inductive NotifyLog where
  | success
  | failureStatus (code : Nat)
  | failureError (e : String)
deriving Repr, DecidableEq

/-- Embedding of APIMonitor.send_discord_notification (monitor.py lines 63-84).
The requests.post call either returns a response with a status code or raises
a transport error, modelled as an Except value; the function classifies every
outcome into a log entry and never raises or retries. -/
def send_discord_notification : Except String Nat → NotifyLog
  | .ok code => if code == 204 then .success else .failureStatus code
  | .error e => .failureError e

/-- The four message templates of monitor.py lines 106-138. -/
inductive Template where
  | recovered
  | scheduledCheck
  | serverDown
  | degraded
deriving Repr, DecidableEq

/-- The recovered template (monitor.py lines 108-114). -/
def recoveredMessage (timestamp response_time api_url : String) : String :=
  "💚 **API 복구됨** 💚\n" ++
  "🕐 **시간**: " ++ timestamp ++ "\n" ++
  "✅ **상태**: 정상 작동 중\n" ++
  "⚡ **응답시간**: " ++ response_time ++ "\n" ++
  "🌐 **서버**: " ++ api_url

/-- The scheduled-check template (monitor.py lines 116-122). -/
def scheduledCheckMessage (timestamp response_time api_url : String) : String :=
  "💚 **API 정시 체크** 💚\n" ++
  "🕐 **시간**: " ++ timestamp ++ "\n" ++
  "✅ **상태**: 정상 작동 중\n" ++
  "⚡ **응답시간**: " ++ response_time ++ "\n" ++
  "🌐 **서버**: " ++ api_url

/-- The server-down template (monitor.py lines 124-130). -/
def serverDownMessage (timestamp error api_url : String) : String :=
  "🔴 **API 서버 다운** 🔴\n" ++
  "🕐 **시간**: " ++ timestamp ++ "\n" ++
  "💀 **상태**: 서버 응답 없음\n" ++
  "❌ **에러**: " ++ error ++ "\n" ++
  "🌐 **서버**: " ++ api_url

/-- The degraded template (monitor.py lines 132-138). -/
def degradedMessage (timestamp error api_url : String) : String :=
  "⚠️ **API 문제 발생** ⚠️\n" ++
  "🕐 **시간**: " ++ timestamp ++ "\n" ++
  "🟡 **상태**: 서버 응답 불량\n" ++
  "❌ **에러**: " ++ error ++ "\n" ++
  "🌐 **서버**: " ++ api_url

/-- The branch structure of the message selection in monitor.py lines 106-138,
as a function from (current status, status changed) to the chosen template. -/
def messageTemplate (current_status : String) (status_changed : Bool) : Template :=
  if current_status == "healthy" then
    if status_changed then .recovered else .scheduledCheck
  else if current_status == "down" then .serverDown
  else .degraded

/-- The message construction of monitor.py lines 106-138: the same branch
structure, producing the formatted string; the optional response_time and
error fields are read with dict.get and the defaults of lines 112, 120, 128
and 136. -/
def buildMessage (health_result : List (String × String)) (status_changed : Bool)
    (current_status timestamp api_url : String) : String :=
  if current_status == "healthy" then
    if status_changed then
      recoveredMessage timestamp (dictGet health_result "response_time" "unknown") api_url
    else
      scheduledCheckMessage timestamp (dictGet health_result "response_time" "unknown") api_url
  else if current_status == "down" then
    serverDownMessage timestamp (dictGet health_result "error" "Unknown error") api_url
  else
    degradedMessage timestamp (dictGet health_result "error" "Unknown error") api_url

/-- status_changed of monitor.py line 102: the inequality comparison of the
Optional last_status against the current status string. -/
def statusChanged (last_status : Option String) (current_status : String) : Bool :=
  last_status != some current_status

/-- hourly_report of monitor.py line 103. -/
def hourlyReport (current_minute : Nat) : Bool :=
  current_minute == 0

/-- The notification trigger of monitor.py line 105. -/
def shouldNotify (last_status : Option String) (current_status : String)
    (current_minute : Nat) : Bool :=
  statusChanged last_status current_status || hourlyReport current_minute

/-- The per-iteration inputs of one pass of the while-loop: the outcome of the
health-check GET, the current KST minute and formatted timestamp, and the
outcome of the webhook POST if one is attempted. -/
structure IterInput where
  outcome : HttpOutcome
  minute : Nat
  timestamp : String
  post : Except String Nat

/-- The body of one iteration of monitor_loop (monitor.py lines 92-143) without
the surrounding try/except: the dict index health_result['status'] can raise a
KeyError, modelled as the error case; on success it returns the new last_status
together with the notification (message and send log) when one was sent. -/
def iterBody (api_url : String) (last_status : Option String) (inp : IterInput) :
    Except String (Option String × Option (String × NotifyLog)) :=
  let health_result := check_api_health inp.outcome
  match List.lookup "status" health_result with
  | none => .error "KeyError: status"
  | some current_status =>
    let status_changed := statusChanged last_status current_status
    if shouldNotify last_status current_status inp.minute then
      let message := buildMessage health_result status_changed current_status
        inp.timestamp api_url
      .ok (some current_status, some (message, send_discord_notification inp.post))
    else
      .ok (some current_status, none)

/-- One pass of the while-loop with its try/except (monitor.py lines 90-148):
an exception from the body is caught and logged, leaving last_status unchanged;
the loop always proceeds.  The second component is the iteration trace entry:
either the notification outcome or the logged exception text. -/
def loopStep (api_url : String) (last_status : Option String) (inp : IterInput) :
    Option String × (Option (String × NotifyLog) ⊕ String) :=
  match iterBody api_url last_status inp with
  | .ok (newLast, note) => (newLast, .inl note)
  | .error e => (last_status, .inr e)

/-- The continuous monitor loop over a finite trace of iteration inputs,
returning the final last_status and the per-iteration trace entries. -/
def runLoop (api_url : String) (last_status : Option String) :
    List IterInput → Option String × List (Option (String × NotifyLog) ⊕ String)
  | [] => (last_status, [])
  | inp :: rest =>
    let step := loopStep api_url last_status inp
    let next := runLoop api_url step.1 rest
    (next.1, step.2 :: next.2)

/-- Modelled from the spec: the single-check driver is not among the files under
src (only the continuous monitor_loop is).  Per spec sections 2 and 4.4, the
single-check mode runs exactly one check and notifies iff the current status is
not healthy, with the server-down template for status down and the degraded
template for any other non-healthy status; a healthy result sends nothing. -/
def singleCheckNotification (current_status : String) : Option Template :=
  if current_status != "healthy" then
    some (if current_status == "down" then Template.serverDown else Template.degraded)
  else
    none

/-- The statuses check_api_health can produce. -/
def ValidStatus (s : String) : Prop :=
  s = "healthy" ∨ s = "unhealthy" ∨ s = "down"

/-- C1: check_api_health classifies every HTTP outcome exactly as spec section 4.1
says: HTTP 200 with a JSON body gives status healthy with response_time taken from
the X-Process-Time header when present and unknown otherwise; a non-200 response
gives unhealthy with error HTTP followed by the status code; a connection-refused
error gives down with the fixed connection-refused message; a timeout gives
unhealthy with the fixed 10-second timeout message; any other transport or parse
failure, including a 200 response with a malformed body, gives unhealthy with the
failure's description.  The function is total over all outcomes, so it never
raises to its caller. -/
theorem check_api_health_classification :
    (∀ (xpt : Option String) (data : String),
        check_api_health (.response 200 xpt (.ok data)) =
          [("status", "healthy"), ("response_time", xpt.getD "unknown"),
           ("data", data)]) ∧
    (∀ (xpt : Option String) (e : String),
        check_api_health (.response 200 xpt (.error e)) =
          [("status", "unhealthy"), ("error", e)]) ∧
    (∀ (status : Nat) (xpt : Option String) (body : Except String String),
        status ≠ 200 →
        check_api_health (.response status xpt body) =
          [("status", "unhealthy"), ("error", "HTTP " ++ toString status)]) ∧
    (check_api_health .connectorError =
        [("status", "down"), ("error", connectionRefusedMessage)]) ∧
    (check_api_health .timeout =
        [("status", "unhealthy"), ("error", "Request timeout (10s)")]) ∧
    (∀ e : String, check_api_health (.otherError e) =
        [("status", "unhealthy"), ("error", e)]) := by
  refine ⟨fun xpt data => rfl, fun xpt e => rfl,
    fun status xpt body h => ?_, rfl, rfl, fun e => rfl⟩
  simp [check_api_health, h]

/-- Witness for C1: a concrete non-200 response is classified as unhealthy. -/
theorem check_api_health_classification_witness :
    check_api_health (.response 500 none (.ok "ok")) =
      [("status", "unhealthy"), ("error", "HTTP " ++ toString 500)] :=
  check_api_health_classification.2.2.1 500 none (.ok "ok") (by decide)

/-- C2: in continuous mode a notification is sent iff the previous status differs
from the current status or the current minute is zero; two consecutive identical
statuses at a non-zero minute never notify, and a flip from healthy to down
notifies at every minute. -/
theorem continuous_notify_iff :
    (∀ (last_status : Option String) (current_status : String) (minute : Nat),
        shouldNotify last_status current_status minute = true ↔
          last_status ≠ some current_status ∨ minute = 0) ∧
    (∀ (s : String) (minute : Nat), minute ≠ 0 →
        shouldNotify (some s) s minute = false) ∧
    (∀ minute : Nat, shouldNotify (some "healthy") "down" minute = true) := by
  refine ⟨fun l c m => ?_, fun s m hm => ?_, fun m => ?_⟩
  · simp [shouldNotify, statusChanged, hourlyReport, bne_iff_ne]
  · simp [shouldNotify, statusChanged, hourlyReport, hm]
  · simp [shouldNotify, statusChanged, bne_iff_ne]

/-- Witness for C2: an unchanged status at minute 17 sends nothing. -/
theorem continuous_notify_iff_witness :
    shouldNotify (some "healthy") "healthy" 17 = false :=
  continuous_notify_iff.2.1 "healthy" 17 (by decide)

/-- C3: the message template is a function of the current status and the
status-changed flag: healthy with a change gives the recovered template, healthy
without a change gives the scheduled-check template, down always gives the
server-down template, and any other status gives the degraded template. -/
theorem template_selection :
    (messageTemplate "healthy" true = Template.recovered) ∧
    (messageTemplate "healthy" false = Template.scheduledCheck) ∧
    (∀ sc : Bool, messageTemplate "down" sc = Template.serverDown) ∧
    (∀ (s : String) (sc : Bool), s ≠ "healthy" → s ≠ "down" →
        messageTemplate s sc = Template.degraded) := by
  refine ⟨rfl, rfl, fun sc => rfl, fun s sc h1 h2 => ?_⟩
  simp [messageTemplate, h1, h2]

/-- Witness for C3: status unhealthy selects the degraded template. -/
theorem template_selection_witness :
    messageTemplate "unhealthy" true = Template.degraded :=
  template_selection.2.2.2 "unhealthy" true (by decide) (by decide)

/-- C4: the single-check mode notifies iff the current status is not healthy,
mapping down to the server-down template and any other non-healthy status to the
degraded template, so a healthy result never triggers a webhook POST and any
non-healthy result always does. -/
theorem single_check_policy :
    (∀ s : String, singleCheckNotification s = none ↔ s = "healthy") ∧
    (singleCheckNotification "down" = some Template.serverDown) ∧
    (∀ s : String, s ≠ "healthy" → s ≠ "down" →
        singleCheckNotification s = some Template.degraded) := by
  refine ⟨fun s => ?_, by decide, fun s h1 h2 => ?_⟩
  · by_cases h : s = "healthy" <;> simp [singleCheckNotification, h]
  · simp [singleCheckNotification, h1, h2]

/-- Witness for C4: status unhealthy triggers the degraded template. -/
theorem single_check_policy_witness :
    singleCheckNotification "unhealthy" = some Template.degraded :=
  single_check_policy.2.2 "unhealthy" (by decide) (by decide)

/-- C5: on the first continuous-mode iteration last_status is None, the
inequality comparison of None against any current status is true, and a
notification is sent at every minute. -/
theorem first_iteration_always_notifies :
    ∀ (current_status : String) (minute : Nat),
      statusChanged none current_status = true ∧
      shouldNotify none current_status minute = true := by
  intro c m
  exact ⟨rfl, by simp [shouldNotify, statusChanged]⟩

/-- C6: send_discord_notification never propagates a failure: an HTTP 204
response is logged as success, any other HTTP response is logged as a failure
with its status code, and any transport error is caught and logged with its
description; the classification is total, so the function never raises or
retries. -/
theorem send_discord_notification_behaviour :
    (send_discord_notification (.ok 204) = NotifyLog.success) ∧
    (∀ code : Nat, code ≠ 204 →
        send_discord_notification (.ok code) = NotifyLog.failureStatus code) ∧
    (∀ e : String, send_discord_notification (.error e) = NotifyLog.failureError e) := by
  refine ⟨rfl, fun code h => ?_, fun e => rfl⟩
  simp [send_discord_notification, h]

/-- Witness for C6: an HTTP 500 webhook response is logged as a failure. -/
theorem send_discord_notification_behaviour_witness :
    send_discord_notification (.ok 500) = NotifyLog.failureStatus 500 :=
  send_discord_notification_behaviour.2.1 500 (by decide)

/-- Every result dict of check_api_health carries a status key whose value is
one of the three status strings. -/
lemma check_status_valid (o : HttpOutcome) :
    ∃ s, List.lookup "status" (check_api_health o) = some s ∧ ValidStatus s := by
  cases o with
  | response status xpt body =>
    by_cases h : (status == 200) = true
    · cases body with
      | ok data => exact ⟨"healthy", by simp [check_api_health, h, List.lookup], Or.inl rfl⟩
      | error e =>
        exact ⟨"unhealthy", by simp [check_api_health, h, List.lookup], Or.inr (Or.inl rfl)⟩
    · exact ⟨"unhealthy", by simp [check_api_health, h, List.lookup], Or.inr (Or.inl rfl)⟩
  | connectorError => exact ⟨"down", rfl, Or.inr (Or.inr rfl)⟩
  | timeout => exact ⟨"unhealthy", rfl, Or.inr (Or.inl rfl)⟩
  | otherError e => exact ⟨"unhealthy", rfl, Or.inr (Or.inl rfl)⟩

/-- One loop pass keeps the last_status either unchanged or equal to the freshly
produced status, so validity of the tracked status is preserved. -/
lemma loopStep_preserves_valid (api_url : String) (last : Option String)
    (inp : IterInput) (_h : ∀ s, last = some s → ValidStatus s) :
    ∀ s, (loopStep api_url last inp).1 = some s → ValidStatus s := by
  intro s hs
  obtain ⟨c, hc, hv⟩ := check_status_valid inp.outcome
  by_cases hb : shouldNotify last c inp.minute = true
  · simp [loopStep, iterBody, hc, hb] at hs
    exact hs ▸ hv
  · simp [loopStep, iterBody, hc, hb] at hs
    exact hs ▸ hv

/-- C7: the continuous loop survives every iteration: over any finite trace of
iteration inputs the loop produces one trace entry per input and never
terminates early, an exception inside the body is caught leaving last_status
unchanged, and an iteration whose webhook POST returns HTTP 500 completes
normally with the failure logged. -/
theorem loop_survives_all_iterations :
    (∀ (api_url : String) (init : Option String) (events : List IterInput),
        (runLoop api_url init events).2.length = events.length) ∧
    (∀ (api_url : String) (last : Option String) (inp : IterInput) (e : String),
        iterBody api_url last inp = .error e →
        loopStep api_url last inp = (last, .inr e)) ∧
    (∀ (api_url : String) (last : Option String) (inp : IterInput) (s : String),
        List.lookup "status" (check_api_health inp.outcome) = some s →
        inp.post = .ok 500 →
        shouldNotify last s inp.minute = true →
        loopStep api_url last inp =
          (some s,
           .inl (some (buildMessage (check_api_health inp.outcome)
                         (statusChanged last s) s inp.timestamp api_url,
                       NotifyLog.failureStatus 500)))) := by
  refine ⟨fun url init events => ?_, fun url last inp e he => ?_, fun url last inp s hs hp hn => ?_⟩
  · induction events generalizing init with
    | nil => rfl
    | cons inp rest ih => simp [runLoop, ih]
  · simp [loopStep, he]
  · simp [loopStep, iterBody, hs, hn, hp, send_discord_notification]

/-- Witness for C7: a down check at minute 5 whose webhook POST returns 500
completes its iteration with a logged failure and an updated last_status. -/
theorem loop_survives_all_iterations_witness :
    loopStep "api" (some "healthy") ⟨.connectorError, 5, "ts", .ok 500⟩ =
      (some "down",
       .inl (some (buildMessage (check_api_health .connectorError)
                     (statusChanged (some "healthy") "down") "down" "ts" "api",
                   NotifyLog.failureStatus 500))) :=
  loop_survives_all_iterations.2.2 "api" (some "healthy")
    ⟨.connectorError, 5, "ts", .ok 500⟩ "down" rfl rfl (by decide)

/-- C8: at the end of every successful iteration last_status is set to the
current status, whether or not a notification was sent. -/
theorem last_status_set_unconditionally :
    ∀ (api_url : String) (last : Option String) (inp : IterInput) (s : String),
      List.lookup "status" (check_api_health inp.outcome) = some s →
      (loopStep api_url last inp).1 = some s := by
  intro url last inp s hs
  by_cases hb : shouldNotify last s inp.minute = true <;>
    simp [loopStep, iterBody, hs, hb]

/-- Witness for C8: a timeout check at a non-notifying minute still updates
last_status to unhealthy. -/
theorem last_status_set_unconditionally_witness :
    (loopStep "api" (some "unhealthy") ⟨.timeout, 7, "ts", .ok 204⟩).1 =
      some "unhealthy" :=
  last_status_set_unconditionally "api" (some "unhealthy")
    ⟨.timeout, 7, "ts", .ok 204⟩ "unhealthy" rfl

/-- C9: every check result has a status field equal to healthy, unhealthy or
down, and in the continuous loop last_status is always either None or one of
these three values: the invariant holds initially and is preserved by every
iteration of any trace. -/
theorem status_always_valid :
    (∀ o : HttpOutcome, ∃ s,
        List.lookup "status" (check_api_health o) = some s ∧ ValidStatus s) ∧
    (∀ (api_url : String) (init : Option String) (events : List IterInput),
        (∀ s, init = some s → ValidStatus s) →
        ∀ s, (runLoop api_url init events).1 = some s → ValidStatus s) := by
  refine ⟨check_status_valid, fun url init events => ?_⟩
  induction events generalizing init with
  | nil => intro h s hs; exact h s hs
  | cons inp rest ih =>
    intro h s hs
    simp only [runLoop] at hs
    exact ih _ (loopStep_preserves_valid url init inp h) s hs

/-- Witness for C9: starting from None, one connection-refused iteration leaves
last_status at the valid value down. -/
theorem status_always_valid_witness : ValidStatus "down" :=
  status_always_valid.2 "api" none [⟨.connectorError, 5, "ts", .ok 204⟩]
    (fun _ hs => nomatch hs) "down" rfl

/-- C10: message construction is total: for every health-result dict the built
message is one of the four templates, with the response-time and error fields
read through a dict lookup that falls back to the defaults unknown and Unknown
error when the key is absent, so no template ever fails on a missing field. -/
theorem message_construction_total :
    ∀ (d : List (String × String)) (sc : Bool) (cs ts url : String),
      (buildMessage d sc cs ts url =
          recoveredMessage ts (dictGet d "response_time" "unknown") url ∨
       buildMessage d sc cs ts url =
          scheduledCheckMessage ts (dictGet d "response_time" "unknown") url ∨
       buildMessage d sc cs ts url =
          serverDownMessage ts (dictGet d "error" "Unknown error") url ∨
       buildMessage d sc cs ts url =
          degradedMessage ts (dictGet d "error" "Unknown error") url) ∧
      (List.lookup "response_time" d = none →
          dictGet d "response_time" "unknown" = "unknown") ∧
      (List.lookup "error" d = none →
          dictGet d "error" "Unknown error" = "Unknown error") := by
  intro d sc cs ts url
  refine ⟨?_, fun h => by simp [dictGet, h], fun h => by simp [dictGet, h]⟩
  by_cases h1 : (cs == "healthy") = true
  · cases sc
    · exact Or.inr (Or.inl (by simp [buildMessage, h1]))
    · exact Or.inl (by simp [buildMessage, h1])
  · by_cases h3 : (cs == "down") = true
    · exact Or.inr (Or.inr (Or.inl (by simp [buildMessage, h1, h3])))
    · exact Or.inr (Or.inr (Or.inr (by simp [buildMessage, h1, h3])))

/-- Witness for C10: a dict without optional fields falls back to the default
error text. -/
theorem message_construction_total_witness :
    dictGet [("status", "unhealthy")] "error" "Unknown error" = "Unknown error" :=
  (message_construction_total [("status", "unhealthy")] true "unhealthy"
    "ts" "api").2.2 rfl

end Heartbeat
